import Mathlib

/-!
Shallow embedding of `src/actors/symcaches.rs` (the symcache actor of the
symbolicator repository): the error taxonomy, the `SymCache` result handle and
its `get_symcache` decoder, the `CacheItemRequest` implementation
(`get_cache_key`, `compute`, `load`) of `FetchSymCacheInternal`, and the
`Handler<FetchSymCache>` dispatch of `SymCacheActor`.

External effects (actor mailboxes, the object-retrieval subsystem, the
filesystem, the symbolic encoder/decoder and the timeout) are represented by an
explicit environment record so that `compute` becomes a pure function of that
environment.  Byte streams are `List Nat`.
-/

namespace Symcaches

/-- Scopes are opaque classification values; modelled as strings. -/
abbrev Scope := String

/-- Opaque object identifier (`ObjectId` in `types`). -/
abbrev ObjectId := String

/-- Opaque object type (`ObjectType` in `types`). -/
abbrev ObjectType := String

/-- Opaque source configuration (`SourceConfig` in `types`). -/
abbrev SourceConfig := String

/-- Modelled from the spec: `ObjectId::get_cache_key` lives in `types`, which is
not part of the sources under study; the spec only requires it to be a pure,
deterministic function of the identifier alone. -/
def ObjectId.get_cache_key (id : ObjectId) : String := id

/-- Modelled from the spec: `FileType::from_object_type` lives in `types`; the
spec only says the outbound retrieval request carries "the requested object
type's matching file-type set", a pure function of the object type. -/
def fileTypesFromObjectType (t : ObjectType) : List String := [t]

/-- Error kinds of `SymCacheErrorKind` from `symcaches.rs` lines 29-48. -/
inductive SymCacheErrorKind where
  | Io
  | Fetching
  | Mailbox
  | Parsing
  | ObjectParsing
  | Timeout
deriving DecidableEq, Repr

/-- The error `SymCacheError`: the `derive_failure!` wrapper is a
context-carrying error whose observable payload is its kind. -/
structure SymCacheError where
  kind : SymCacheErrorKind
deriving DecidableEq, Repr

/-- The request message `FetchSymCache` (lines 184-190). -/
structure FetchSymCache where
  object_type : ObjectType
  identifier : ObjectId
  sources : List SourceConfig
  scope : Scope
deriving DecidableEq, Repr

/-- The cache key structure from `actors::cache`. -/
structure CacheKey where
  cache_key : String
  scope : Scope
deriving DecidableEq, Repr

/-- Cache key derivation `FetchSymCacheInternal::get_cache_key`
(lines 121-126): built from the identifier's cache key and the requested scope
only. -/
def get_cache_key (req : FetchSymCache) : CacheKey :=
  { cache_key := req.identifier.get_cache_key
    scope := req.scope }

/-- The sentinel bytes `b"malformed"` written for unparsable objects. -/
def malformedBytes : List Nat := [109, 97, 108, 102, 111, 114, 109, 101, 100]

/-- The `SymCache` handle (lines 86-91): optional raw bytes, the resolved
scope, and the originating request. -/
structure SymCache where
  inner : Option (List Nat)
  scope : Scope
  request : FetchSymCache
deriving DecidableEq, Repr

/-- Placeholder for a successfully parsed symcache artifact
(`symcache::SymCache` of the external symbolic crate). -/
structure SymCacheArtifact where
  id : Nat
deriving DecidableEq, Repr

/-- The decoder `SymCache::get_symcache` (lines 94-107), parameterized by the
external symbolic parser `symcache::SymCache::parse`:
no bytes → `Ok None`; bytes equal to the sentinel → `ObjectParsing`;
otherwise run the parser, failures becoming kind `Parsing`. -/
def SymCache.get_symcache (parse : List Nat → Except Unit SymCacheArtifact)
    (self : SymCache) : Except SymCacheError (Option SymCacheArtifact) :=
  match self.inner with
  | none => Except.ok none
  | some bytes =>
    if bytes = malformedBytes then
      Except.error ⟨SymCacheErrorKind.ObjectParsing⟩
    else
      match parse bytes with
      | Except.error _ => Except.error ⟨SymCacheErrorKind.Parsing⟩
      | Except.ok a => Except.ok (some a)

/-- The loader `FetchSymCacheInternal::load` (lines 174-180): always `Ok`,
storing the bytes untouched, `None` when the stream is empty. -/
def load (req : FetchSymCache) (scope : Scope) (data : List Nat) :
    Except SymCacheError SymCache :=
  Except.ok
    { request := req
      scope := scope
      inner := if !data.isEmpty then some data else none }

/-- Placeholder for a parsed debug object (`symbolic` crate `Object`). -/
structure ParsedObject where
  id : Nat
deriving DecidableEq, Repr

/-- The response handle of the object-retrieval subsystem: the scope the object
was resolved under, and `get_object`, which reports a parsed object, absence,
or a parse failure. -/
structure FetchedObject where
  scope : Scope
  get_object : Except Unit (Option ParsedObject)

/-- Environment capturing every external effect `compute` depends on:
the mailbox round-trip to the objects actor (outer `Except` is delivery, inner
is the retrieval result), whether `File::create` succeeds, the outcome of the
symcache encoder `SymCacheWriter::write_object`, whether the sentinel
`write_all` succeeds, and whether the 300-second deadline elapsed first. -/
structure ComputeEnv where
  send : Except Unit (Except Unit FetchedObject)
  createOk : Bool
  encode : ParsedObject → Except Unit (List Nat)
  sentinelWriteOk : Bool
  timedOut : Bool

/-- The outbound `FetchObject` message built by `compute` (lines 137-142). -/
structure FetchObjectMsg where
  filetypes : List String
  identifier : ObjectId
  sources : List SourceConfig
  scope : Scope
deriving DecidableEq, Repr

/-- The message `compute` sends to the objects actor, assembled from the
request's fields. -/
def fetchMessage (req : FetchSymCache) : FetchObjectMsg :=
  { filetypes := fileTypesFromObjectType req.object_type
    identifier := req.identifier
    sources := req.sources
    scope := req.scope }

/-- The inner future of `compute` (lines 136-163), before the timeout wrapper:
returns the bytes now stored at the target path (`none` when the file was never
created) and the result. -/
def computeInner (env : ComputeEnv) :
    Option (List Nat) × Except SymCacheError Scope :=
  match env.send with
  | Except.error _ => (none, Except.error ⟨SymCacheErrorKind.Mailbox⟩)
  | Except.ok fetchResult =>
    match fetchResult with
    | Except.error _ => (none, Except.error ⟨SymCacheErrorKind.Fetching⟩)
    | Except.ok object =>
      if !env.createOk then
        (none, Except.error ⟨SymCacheErrorKind.Io⟩)
      else
        match object.get_object with
        | Except.ok (some parsed) =>
          match env.encode parsed with
          | Except.ok bytes => (some bytes, Except.ok object.scope)
          | Except.error _ => (some [], Except.error ⟨SymCacheErrorKind.Io⟩)
        | Except.ok none => (some [], Except.ok object.scope)
        | Except.error _ =>
          if env.sentinelWriteOk then
            (some malformedBytes, Except.ok object.scope)
          else
            (some [], Except.error ⟨SymCacheErrorKind.Io⟩)

/-- The deadline passed to `measure_task` (line 167): 300 seconds. -/
def computeDeadlineSecs : Nat := 300

/-- Modelled from the spec: `measure_task` lives in `crate::futures`, which is
not part of the sources under study; the spec says the wrapped computation is
raced against the given deadline and, when the deadline elapses first, fails
with the error produced by the supplied closure. -/
def measure_task (timeout : Option (Nat × SymCacheError)) (elapsed : Bool)
    (result : Except SymCacheError Scope) : Except SymCacheError Scope :=
  match timeout with
  | some (_, e) => if elapsed then Except.error e else result
  | none => result

/-- The pipeline `FetchSymCacheInternal::compute` (lines 128-172): sends
`fetchMessage req` to the objects actor (whose reply is `env.send`) and wraps
the inner pipeline in `measure_task` with a 300-second deadline producing
`Timeout`.  The first component is the bytes stored at the target path. -/
def compute (req : FetchSymCache) (env : ComputeEnv) :
    Option (List Nat) × Except SymCacheError Scope :=
  let _msg := fetchMessage req
  let inner := computeInner env
  (inner.1,
   measure_task (some (computeDeadlineSecs, ⟨SymCacheErrorKind.Timeout⟩))
     env.timedOut inner.2)

/-- The dispatch `SymCacheActor::handle` for `FetchSymCache` (lines 199-210):
forward to the memoizing cache engine; a delivery failure to the engine becomes
`Mailbox`, otherwise the engine's response is propagated. -/
def handle (engineResponse : Except Unit (Except SymCacheError SymCache)) :
    Except SymCacheError SymCache :=
  match engineResponse with
  | Except.error _ => Except.error ⟨SymCacheErrorKind.Mailbox⟩
  | Except.ok response => response

/-- Modelled from the spec: the per-key slot state of the memoizing cache
engine (`actors::cache`, not among the sources under study).  The spec gives
the state machine `Uninitialized → Computing → Cached` and the single-flight
guarantee. -/
inductive SlotState where
  | uninitialized
  | computing (waiters : Nat)
  | cached (outcome : Except SymCacheError SymCache)

/-- Modelled from the spec: the engine's per-key bookkeeping.  `computations`
counts how many retrieval-plus-conversion runs were ever started for this key
in this cache generation; `observed` records the outcome each finished caller
observed. -/
structure EngineState where
  slot : SlotState
  computations : Nat
  observed : List (Except SymCacheError SymCache)

/-- Modelled from the spec: a fresh cache slot, before any request. -/
def engineInit : EngineState :=
  { slot := SlotState.uninitialized, computations := 0, observed := [] }

/-- Modelled from the spec: the engine's transitions for one key.  A request
hitting an uninitialized slot starts the one computation; a request arriving
while a computation is in flight joins it as a further waiter (starting
nothing); completion delivers the single shared outcome to every waiter; a
request hitting a cached slot observes the cached outcome. -/
inductive EngineStep : EngineState → EngineState → Prop where
  | start (s : EngineState) (h : s.slot = SlotState.uninitialized) :
      EngineStep s
        { slot := SlotState.computing 1
          computations := s.computations + 1
          observed := s.observed }
  | join (s : EngineState) (w : Nat) (h : s.slot = SlotState.computing w) :
      EngineStep s
        { slot := SlotState.computing (w + 1)
          computations := s.computations
          observed := s.observed }
  | complete (s : EngineState) (w : Nat)
      (o : Except SymCacheError SymCache) (h : s.slot = SlotState.computing w) :
      EngineStep s
        { slot := SlotState.cached o
          computations := s.computations
          observed := s.observed ++ List.replicate w o }
  | hit (s : EngineState) (o : Except SymCacheError SymCache)
      (h : s.slot = SlotState.cached o) :
      EngineStep s
        { slot := SlotState.cached o
          computations := s.computations
          observed := s.observed ++ [o] }

/-- Modelled from the spec: the states a cache slot can reach within one cache
generation. -/
inductive EngineReachable : EngineState → Prop where
  | init : EngineReachable engineInit
  | step {s t : EngineState} :
      EngineReachable s → EngineStep s t → EngineReachable t

/-- Inductive invariant of the engine's per-key state machine. -/
def EngineInv (s : EngineState) : Prop :=
  s.computations ≤ 1 ∧
  (s.slot = SlotState.uninitialized → s.computations = 0 ∧ s.observed = []) ∧
  (∀ w, s.slot = SlotState.computing w →
      s.computations = 1 ∧ s.observed = []) ∧
  (∀ o, s.slot = SlotState.cached o → ∀ x ∈ s.observed, x = o)

/-- A stream that strictly extends the sentinel is not the sentinel. -/
theorem bytes_append_ne_malformed (rest : List Nat) (hrest : rest ≠ []) :
    malformedBytes ++ rest ≠ malformedBytes := by
  intro h
  have hlen := congrArg List.length h
  simp [malformedBytes] at hlen
  exact hrest hlen

/-- Every reachable engine state satisfies the inductive invariant. -/
theorem engineInv_reachable (s : EngineState) (h : EngineReachable s) :
    EngineInv s := by
  induction h with
  | init =>
    refine ⟨by simp [engineInit], fun _ => ⟨rfl, rfl⟩, ?_, ?_⟩
    · intro w hw
      exact SlotState.noConfusion hw
    · intro o _ x hx
      simp [engineInit] at hx
  | step _ hstep ih =>
    cases hstep with
    | start h =>
      obtain ⟨hle, hun, hcomp, hcach⟩ := ih
      obtain ⟨hc0, hobs⟩ := hun h
      refine ⟨by simp [hc0], ?_, ?_, ?_⟩
      · intro hw
        exact SlotState.noConfusion hw
      · intro w hw
        exact ⟨by simp [hc0], by simp [hobs]⟩
      · intro o ho
        exact SlotState.noConfusion ho
    | join w h =>
      obtain ⟨hle, hun, hcomp, hcach⟩ := ih
      obtain ⟨hc1, hobs⟩ := hcomp w h
      refine ⟨by simp [hc1], ?_, ?_, ?_⟩
      · intro hw
        exact SlotState.noConfusion hw
      · intro w' hw'
        exact ⟨by simp [hc1], by simp [hobs]⟩
      · intro o ho
        exact SlotState.noConfusion ho
    | complete w o h =>
      obtain ⟨hle, hun, hcomp, hcach⟩ := ih
      obtain ⟨hc1, hobs⟩ := hcomp w h
      refine ⟨by simp [hc1], ?_, ?_, ?_⟩
      · intro hw
        exact SlotState.noConfusion hw
      · intro w' hw'
        exact SlotState.noConfusion hw'
      · intro o' ho' x hx
        injection ho' with ho2
        simp [hobs, List.mem_replicate] at hx
        exact ho2 ▸ hx.2
    | hit o h =>
      obtain ⟨hle, hun, hcomp, hcach⟩ := ih
      refine ⟨hle, ?_, ?_, ?_⟩
      · intro hw
        exact SlotState.noConfusion hw
      · intro w hw
        exact SlotState.noConfusion hw
      · intro o' ho' x hx
        injection ho' with ho2
        simp [List.mem_append] at hx
        cases hx with
        | inl hmem => exact ho2 ▸ hcach o h x hmem
        | inr heq => exact ho2 ▸ heq

/-- C1: when the retrieval subsystem delivers a successful response, `compute`
writes exactly one of three encodings to the target path: the encoder's output
when an object was fetched and parses, nothing (an empty stream, still a
success) when no object exists, and exactly the sentinel bytes `malformed`
(still a success) when the fetched object fails to parse. -/
theorem c1_compute_three_encodings (req : FetchSymCache) (env : ComputeEnv)
    (obj : FetchedObject)
    (hsend : env.send = Except.ok (Except.ok obj))
    (hcreate : env.createOk = true)
    (htime : env.timedOut = false) :
    (∀ p bytes, obj.get_object = Except.ok (some p) →
        env.encode p = Except.ok bytes →
        (compute req env).1 = some bytes ∧
        (compute req env).2 = Except.ok obj.scope) ∧
    (obj.get_object = Except.ok none →
        (compute req env).1 = some [] ∧
        (compute req env).2 = Except.ok obj.scope) ∧
    (∀ e, obj.get_object = Except.error e → env.sentinelWriteOk = true →
        (compute req env).1 = some malformedBytes ∧
        (compute req env).2 = Except.ok obj.scope) := by
  refine ⟨?_, ?_, ?_⟩
  · intro p bytes hobj henc
    constructor
    · simp [compute, computeInner, hsend, hcreate, hobj, henc]
    · simp [compute, computeInner, measure_task, hsend, hcreate, htime, hobj,
        henc]
  · intro hobj
    constructor
    · simp [compute, computeInner, hsend, hcreate, hobj]
    · simp [compute, computeInner, measure_task, hsend, hcreate, htime, hobj]
  · intro e hobj hsw
    constructor
    · simp [compute, computeInner, hsend, hcreate, hobj, hsw]
    · simp [compute, computeInner, measure_task, hsend, hcreate, htime, hobj,
        hsw]

/-- Witness for C1 at a concrete environment: retrieval succeeds, no object
exists, so the slot is written empty and the computation succeeds. -/
theorem c1_compute_three_encodings_witness :
    (compute ⟨"macho", "abc123", [], "public"⟩
        ⟨Except.ok (Except.ok ⟨"public", Except.ok none⟩), true,
         fun _ => Except.ok [1], true, false⟩).1 = some [] :=
  ((c1_compute_three_encodings ⟨"macho", "abc123", [], "public"⟩
      ⟨Except.ok (Except.ok ⟨"public", Except.ok none⟩), true,
       fun _ => Except.ok [1], true, false⟩
      ⟨"public", Except.ok none⟩ rfl rfl rfl).2.1 rfl).1

/-- C2: `get_symcache` is determined solely by the stored bytes: absent raw
bytes give `Ok None`; bytes equal to the sentinel `malformed` give an
`ObjectParsing` error; any other stored bytes are handed to the real symcache
parser, a parse failure becoming kind `Parsing` and a success the artifact. -/
theorem c2_get_symcache_trichotomy
    (parse : List Nat → Except Unit SymCacheArtifact) (c : SymCache) :
    (c.inner = none → SymCache.get_symcache parse c = Except.ok none) ∧
    (c.inner = some malformedBytes →
        SymCache.get_symcache parse c =
          Except.error ⟨SymCacheErrorKind.ObjectParsing⟩) ∧
    (∀ bytes, c.inner = some bytes → bytes ≠ malformedBytes →
        (∀ e, parse bytes = Except.error e →
            SymCache.get_symcache parse c =
              Except.error ⟨SymCacheErrorKind.Parsing⟩) ∧
        (∀ a, parse bytes = Except.ok a →
            SymCache.get_symcache parse c = Except.ok (some a))) := by
  refine ⟨?_, ?_, ?_⟩
  · intro h
    simp [SymCache.get_symcache, h]
  · intro h
    simp [SymCache.get_symcache, h]
  · intro bytes hb hne
    constructor
    · intro e hp
      simp [SymCache.get_symcache, hb, hne, hp]
    · intro a hp
      simp [SymCache.get_symcache, hb, hne, hp]

/-- Witness for C2 at a concrete handle with absent bytes: the result is
`Ok None`, not an error. -/
theorem c2_get_symcache_trichotomy_witness :
    SymCache.get_symcache (fun _ => Except.error ())
        ⟨none, "public", ⟨"macho", "abc123", [], "public"⟩⟩ = Except.ok none :=
  (c2_get_symcache_trichotomy (fun _ => Except.error ())
      ⟨none, "public", ⟨"macho", "abc123", [], "public"⟩⟩).1 rfl

/-- C3: `load` always returns `Ok` for every scope and byte stream, storing
`none` for an empty stream and the unmodified bytes otherwise, with no
validation or parsing at load time. -/
theorem c3_load_total (req : FetchSymCache) (scope : Scope)
    (data : List Nat) :
    load req scope data =
      Except.ok
        { request := req
          scope := scope
          inner := if data = [] then none else some data } := by
  cases data with
  | nil => rfl
  | cons a l => rfl

/-- C4: whenever `compute` succeeds after the objects actor returned a fetched
object, the success value is that object's resolved scope; and there is a run
in which that resolved scope differs from the scope the caller requested. -/
theorem c4_compute_resolved_scope (req : FetchSymCache) (env : ComputeEnv)
    (obj : FetchedObject)
    (hsend : env.send = Except.ok (Except.ok obj)) :
    (∀ s, (compute req env).2 = Except.ok s → s = obj.scope) ∧
    (∃ req' : FetchSymCache, ∃ env' : ComputeEnv, ∃ obj' : FetchedObject,
        env'.send = Except.ok (Except.ok obj') ∧
        obj'.scope ≠ req'.scope ∧
        (compute req' env').2 = Except.ok obj'.scope) := by
  constructor
  · intro s h
    by_cases ht : env.timedOut = true
    · simp [compute, measure_task, ht] at h
    · by_cases hc : env.createOk = true
      · cases hobj : obj.get_object with
        | ok op =>
          cases op with
          | some p =>
            cases henc : env.encode p with
            | ok bytes =>
              simp [compute, computeInner, measure_task, ht, hc, hsend, hobj,
                henc] at h
              exact h.symm
            | error e =>
              simp [compute, computeInner, measure_task, ht, hc, hsend, hobj,
                henc] at h
          | none =>
            simp [compute, computeInner, measure_task, ht, hc, hsend,
              hobj] at h
            exact h.symm
        | error e =>
          by_cases hs : env.sentinelWriteOk = true
          · simp [compute, computeInner, measure_task, ht, hc, hsend, hobj,
              hs] at h
            exact h.symm
          · simp [compute, computeInner, measure_task, ht, hc, hsend, hobj,
              hs] at h
      · simp [compute, computeInner, measure_task, ht, hc, hsend] at h
  · refine ⟨⟨"macho", "abc123", [], "private"⟩,
      ⟨Except.ok (Except.ok ⟨"public", Except.ok none⟩), true,
       fun _ => Except.ok [], true, false⟩,
      ⟨"public", Except.ok none⟩, rfl, by simp, by rfl⟩

/-- Witness for C4 at a concrete environment: requested scope `private`,
resolved scope `public`. -/
theorem c4_compute_resolved_scope_witness : ("public" : Scope) = "public" :=
  (c4_compute_resolved_scope ⟨"macho", "abc123", [], "private"⟩
      ⟨Except.ok (Except.ok ⟨"public", Except.ok none⟩), true,
       fun _ => Except.ok [], true, false⟩
      ⟨"public", Except.ok none⟩ rfl).1 "public" rfl

/-- C5: the whole compute future is wrapped in a deadline of exactly 300
seconds, and when the deadline elapses the computation fails with kind
`Timeout`. -/
theorem c5_compute_timeout (req : FetchSymCache) (env : ComputeEnv)
    (ht : env.timedOut = true) :
    computeDeadlineSecs = 300 ∧
    (compute req env).2 = Except.error ⟨SymCacheErrorKind.Timeout⟩ :=
  ⟨rfl, by simp [compute, measure_task, ht]⟩

/-- Witness for C5 at a concrete environment whose deadline elapsed. -/
theorem c5_compute_timeout_witness :
    computeDeadlineSecs = 300 ∧
    (compute ⟨"macho", "abc123", [], "public"⟩
        ⟨Except.ok (Except.ok ⟨"public", Except.ok none⟩), true,
         fun _ => Except.ok [], true, true⟩).2 =
      Except.error ⟨SymCacheErrorKind.Timeout⟩ :=
  c5_compute_timeout ⟨"macho", "abc123", [], "public"⟩
    ⟨Except.ok (Except.ok ⟨"public", Except.ok none⟩), true,
     fun _ => Except.ok [], true, true⟩ rfl

/-- C6: a delivery failure to a collaborator yields kind `Mailbox`: in
`compute` when the message to the objects actor cannot be delivered, and in
the coordinator's handler when the message to the memoizing cache engine
cannot be delivered. -/
theorem c6_mailbox_errors :
    (∀ (req : FetchSymCache) (env : ComputeEnv) (e : Unit),
        env.send = Except.error e → env.timedOut = false →
        (compute req env).2 = Except.error ⟨SymCacheErrorKind.Mailbox⟩) ∧
    (∀ e : Unit,
        handle (Except.error e) =
          Except.error ⟨SymCacheErrorKind.Mailbox⟩) := by
  constructor
  · intro req env e hs ht
    simp [compute, computeInner, measure_task, hs, ht]
  · intro e
    rfl

/-- Witness for C6 at a concrete environment with a failed delivery. -/
theorem c6_mailbox_errors_witness :
    (compute ⟨"macho", "abc123", [], "public"⟩
        ⟨Except.error (), true, fun _ => Except.ok [], true, false⟩).2 =
      Except.error ⟨SymCacheErrorKind.Mailbox⟩ :=
  c6_mailbox_errors.1 ⟨"macho", "abc123", [], "public"⟩
    ⟨Except.error (), true, fun _ => Except.ok [], true, false⟩ () rfl rfl

/-- C7: within `compute`, an unsuccessful retrieval response fails with kind
`Fetching`, and each local filesystem failure — creating the target file,
writing the encoder output, writing the sentinel bytes — fails with kind
`Io`. -/
theorem c7_fetching_io_errors (req : FetchSymCache) (env : ComputeEnv)
    (ht : env.timedOut = false) :
    (∀ e, env.send = Except.ok (Except.error e) →
        (compute req env).2 = Except.error ⟨SymCacheErrorKind.Fetching⟩) ∧
    (∀ obj, env.send = Except.ok (Except.ok obj) →
        (env.createOk = false →
            (compute req env).2 = Except.error ⟨SymCacheErrorKind.Io⟩) ∧
        (env.createOk = true →
            (∀ p e, obj.get_object = Except.ok (some p) →
                env.encode p = Except.error e →
                (compute req env).2 =
                  Except.error ⟨SymCacheErrorKind.Io⟩) ∧
            (∀ e, obj.get_object = Except.error e →
                env.sentinelWriteOk = false →
                (compute req env).2 =
                  Except.error ⟨SymCacheErrorKind.Io⟩))) := by
  constructor
  · intro e hs
    simp [compute, computeInner, measure_task, hs, ht]
  · intro obj hs
    constructor
    · intro hc
      simp [compute, computeInner, measure_task, hs, ht, hc]
    · intro hc
      constructor
      · intro p e hobj henc
        simp [compute, computeInner, measure_task, hs, ht, hc, hobj, henc]
      · intro e hobj hsw
        simp [compute, computeInner, measure_task, hs, ht, hc, hobj, hsw]

/-- Witness for C7 at a concrete environment whose retrieval reported a fetch
failure. -/
theorem c7_fetching_io_errors_witness :
    (compute ⟨"macho", "abc123", [], "public"⟩
        ⟨Except.ok (Except.error ()), true, fun _ => Except.ok [], true,
         false⟩).2 = Except.error ⟨SymCacheErrorKind.Fetching⟩ :=
  (c7_fetching_io_errors ⟨"macho", "abc123", [], "public"⟩
      ⟨Except.ok (Except.error ()), true, fun _ => Except.ok [], true,
       false⟩ rfl).1 () rfl

/-- C8: cache key derivation is a pure function of the identifier and the
requested scope only: two requests agreeing on those map to the same key, even
when their source lists and object types differ. -/
theorem c8_cache_key_deterministic (r1 r2 : FetchSymCache)
    (hid : r1.identifier = r2.identifier) (hsc : r1.scope = r2.scope) :
    get_cache_key r1 = get_cache_key r2 := by
  simp [get_cache_key, ObjectId.get_cache_key, hid, hsc]

/-- Witness for C8: same identifier and scope, different object types and
source lists, same cache key. -/
theorem c8_cache_key_deterministic_witness :
    get_cache_key ⟨"macho", "abc123", ["srcA"], "public"⟩ =
      get_cache_key ⟨"elf", "abc123", ["srcB", "srcC"], "public"⟩ :=
  c8_cache_key_deterministic ⟨"macho", "abc123", ["srcA"], "public"⟩
    ⟨"elf", "abc123", ["srcB", "srcC"], "public"⟩ rfl rfl

/-- C9: in the engine's per-key state machine, every reachable state has run
at most one computation (one retrieval plus one conversion), every observer
of the key sees the one shared outcome, and a request arriving while a
computation is in flight joins it without starting another. -/
theorem c9_single_flight :
    (∀ s, EngineReachable s →
        s.computations ≤ 1 ∧
        ∀ x ∈ s.observed, ∀ y ∈ s.observed, x = y) ∧
    (∀ s t w, EngineStep s t → s.slot = SlotState.computing w →
        t.computations = s.computations) := by
  constructor
  · intro s hs
    obtain ⟨hle, hun, hcomp, hcach⟩ := engineInv_reachable s hs
    refine ⟨hle, ?_⟩
    intro x hx y hy
    cases hslot : s.slot with
    | uninitialized =>
      rw [(hun hslot).2] at hx
      simp at hx
    | computing w =>
      rw [(hcomp w hslot).2] at hx
      simp at hx
    | cached o =>
      rw [hcach o hslot x hx, hcach o hslot y hy]
  · intro s t w hstep hcomp
    cases hstep with
    | start h => rw [h] at hcomp; exact SlotState.noConfusion hcomp
    | join w' h => rfl
    | complete w' o h => rfl
    | hit o h => rfl

/-- Witness for C9 at the initial engine state. -/
theorem c9_single_flight_witness : engineInit.computations ≤ 1 :=
  (c9_single_flight.1 engineInit EngineReachable.init).1

/-- C10: sentinel detection is exact whole-stream equality, not a prefix
check: a stored stream that strictly extends the sentinel bytes `malformed`
is never reported as `ObjectParsing`; it is handed to the real parser, whose
failure becomes kind `Parsing` and whose success yields the artifact. -/
theorem c10_sentinel_exact_match
    (parse : List Nat → Except Unit SymCacheArtifact) (c : SymCache)
    (rest : List Nat)
    (hinner : c.inner = some (malformedBytes ++ rest)) (hrest : rest ≠ []) :
    SymCache.get_symcache parse c ≠
        Except.error ⟨SymCacheErrorKind.ObjectParsing⟩ ∧
    (∀ e, parse (malformedBytes ++ rest) = Except.error e →
        SymCache.get_symcache parse c =
          Except.error ⟨SymCacheErrorKind.Parsing⟩) ∧
    (∀ a, parse (malformedBytes ++ rest) = Except.ok a →
        SymCache.get_symcache parse c = Except.ok (some a)) := by
  have hne := bytes_append_ne_malformed rest hrest
  refine ⟨?_, ?_, ?_⟩
  · intro h
    cases hp : parse (malformedBytes ++ rest) with
    | ok a =>
      simp [SymCache.get_symcache, hinner, hne, hp] at h
    | error e =>
      simp [SymCache.get_symcache, hinner, hne, hp] at h
  · intro e hp
    simp [SymCache.get_symcache, hinner, hne, hp]
  · intro a hp
    simp [SymCache.get_symcache, hinner, hne, hp]

/-- Witness for C10 at a concrete handle storing the sentinel followed by one
extra byte, with a parser that rejects: kind `Parsing`, not `ObjectParsing`. -/
theorem c10_sentinel_exact_match_witness :
    SymCache.get_symcache (fun _ => Except.error ())
        ⟨some (malformedBytes ++ [0]), "public",
         ⟨"macho", "abc123", [], "public"⟩⟩ =
      Except.error ⟨SymCacheErrorKind.Parsing⟩ :=
  (c10_sentinel_exact_match (fun _ => Except.error ())
      ⟨some (malformedBytes ++ [0]), "public",
       ⟨"macho", "abc123", [], "public"⟩⟩ [0] rfl (by simp)).2.1 () rfl

end Symcaches
